import Mathlib

/-!
Shallow embedding of the guardrail coverage engine of the LDF VS Code
extension (`guardrailView.ts`, multi-root version).  Each definition is a
direct translation of the corresponding TypeScript; stateful code
(mutation of `this.guardrailsPerWorkspace` etc.) is turned into explicit
state passing, JavaScript `Map`s become association lists with
last-set-wins lookup, and the loosely typed YAML configuration value is
modelled by the `JVal` type mirroring JavaScript runtime values.
-/

namespace Ldf

/-- `SpecStatus` from `guardrailView.ts`: `'done' | 'todo' | 'partial' | 'n/a'`.
The `'partial'` variant is spelled `partialStatus` here. -/
inductive SpecStatus where
  | done
  | todo
  | partialStatus
  | na
deriving DecidableEq

/-- `GuardrailCoverage['status']`: `'covered' | 'partial' | 'not-covered' | 'not-applicable'`.
The `'partial'` variant is spelled `partialCov` here. -/
inductive OverallStatus where
  | covered
  | partialCov
  | notCovered
  | notApplicable
deriving DecidableEq

/-- `SpecCoverage` interface: per-spec status for one guardrail. -/
structure SpecCoverage where
  specName : String
  status : SpecStatus
  justification : Option String := none
deriving DecidableEq

/-- `Guardrail` interface.  `severity` is one of the four strings
`"critical" | "high" | "medium" | "low"` (TypeScript union types are
erased at runtime, so the model keeps the string). -/
structure Guardrail where
  id : Int
  name : String
  description : String
  severity : String
  enabled : Bool
deriving DecidableEq

/-- `GuardrailCoverage` interface. -/
structure GuardrailCoverage where
  guardrail : Guardrail
  coveredBy : List String
  specCoverage : List SpecCoverage
  status : OverallStatus
  justifications : List String
deriving DecidableEq

/-- `GuardrailTreeProvider.CORE_GUARDRAILS`. -/
def CORE_GUARDRAILS : List Guardrail := [
  { id := 1, name := "Testing Coverage", description := "Minimum test coverage thresholds", severity := "critical", enabled := true },
  { id := 2, name := "Security Basics", description := "OWASP Top 10 prevention", severity := "critical", enabled := true },
  { id := 3, name := "Error Handling", description := "Consistent error responses", severity := "high", enabled := true },
  { id := 4, name := "Logging & Observability", description := "Structured logging, correlation IDs", severity := "high", enabled := true },
  { id := 5, name := "API Design", description := "Versioning, pagination, error format", severity := "high", enabled := true },
  { id := 6, name := "Data Validation", description := "Input validation at boundaries", severity := "critical", enabled := true },
  { id := 7, name := "Database Migrations", description := "Reversible, separate from backfills", severity := "high", enabled := true },
  { id := 8, name := "Documentation", description := "API docs, README, inline comments", severity := "medium", enabled := true }
]

/-- `GuardrailTreeProvider.PRESET_GUARDRAILS`, as an association list
(preset name to rule bundle). -/
def PRESET_GUARDRAILS : List (String × List Guardrail) := [
  ("saas", [
    { id := 9, name := "Multi-Tenancy Isolation", description := "Tenant data isolation", severity := "critical", enabled := true },
    { id := 10, name := "Row-Level Security", description := "Database-level tenant isolation", severity := "critical", enabled := true },
    { id := 11, name := "Subscription Billing", description := "Billing and subscription handling", severity := "high", enabled := true },
    { id := 12, name := "Audit Logging", description := "Security event tracking", severity := "high", enabled := true },
    { id := 13, name := "Data Export/Portability", description := "User data export capability", severity := "medium", enabled := true }
  ]),
  ("fintech", [
    { id := 14, name := "Double-Entry Ledger", description := "Balanced financial transactions", severity := "critical", enabled := true },
    { id := 15, name := "Decimal Precision", description := "Accurate monetary calculations", severity := "critical", enabled := true },
    { id := 16, name := "Transaction Idempotency", description := "Safe retry handling for payments", severity := "critical", enabled := true },
    { id := 17, name := "Audit Trail", description := "Immutable financial records", severity := "critical", enabled := true },
    { id := 18, name := "Regulatory Compliance", description := "Financial regulation adherence", severity := "high", enabled := true },
    { id := 19, name := "Reconciliation", description := "Balance verification processes", severity := "high", enabled := true },
    { id := 20, name := "Currency Handling", description := "Multi-currency support", severity := "high", enabled := true }
  ]),
  ("healthcare", [
    { id := 21, name := "HIPAA Compliance", description := "PHI protection requirements", severity := "critical", enabled := true },
    { id := 22, name := "PHI Encryption", description := "Protected health info encryption", severity := "critical", enabled := true },
    { id := 23, name := "Access Logging", description := "PHI access audit trail", severity := "critical", enabled := true },
    { id := 24, name := "Consent Management", description := "Patient consent tracking", severity := "high", enabled := true },
    { id := 25, name := "Data Retention", description := "PHI retention policies", severity := "high", enabled := true },
    { id := 26, name := "Breach Notification", description := "HIPAA breach procedures", severity := "critical", enabled := true }
  ]),
  ("api-only", [
    { id := 27, name := "API Versioning", description := "Backward-compatible versions", severity := "high", enabled := true },
    { id := 28, name := "Rate Limiting", description := "Request throttling per client", severity := "high", enabled := true },
    { id := 29, name := "API Key Management", description := "Secure key lifecycle", severity := "critical", enabled := true },
    { id := 30, name := "Webhook Delivery", description := "Reliable event notifications", severity := "high", enabled := true }
  ])
]

/-- `const statuses = specCoverage.map(sc => sc.status)`. -/
def statusesOf (specCoverage : List SpecCoverage) : List SpecStatus :=
  specCoverage.map (fun sc => sc.status)

/-- `calculateOverallStatus`: reduce a guardrail's per-spec statuses to one
overall status.  `statuses.includes(x)` is membership, `statuses.every(p)`
is a bounded universal; both are decidable, keeping the definition
executable. -/
def calculateOverallStatus (specCoverage : List SpecCoverage) : OverallStatus :=
  if specCoverage.length = 0 then
    .notCovered
  else if ∀ s ∈ statusesOf specCoverage, s = SpecStatus.na then
    .notApplicable
  else if SpecStatus.partialStatus ∈ statusesOf specCoverage ∨
      (SpecStatus.done ∈ statusesOf specCoverage ∧
       SpecStatus.todo ∈ statusesOf specCoverage) then
    .partialCov
  else if SpecStatus.done ∈ statusesOf specCoverage ∧
      SpecStatus.todo ∉ statusesOf specCoverage ∧
      SpecStatus.partialStatus ∉ statusesOf specCoverage then
    .covered
  else
    .notCovered

/-!
Document scanner (`parseGuardrailCoverageForWorkspace`).  The regular
expression `matrixPattern` tokenises the requirements document into table
rows `(guardrailId, rawStatusText)`; the embedding starts from that row
list (the capture groups the loop body consumes) and models the loop body
exactly: status-cell classification, first-write-wins per spec name, and
the `coveredBy` / `justifications` bookkeeping.
-/

/-!
JavaScript string primitives (`toUpperCase`, `trim`, `startsWith`,
`includes`, `split`, `join`, `String(n)`) translated to structurally
recursive functions over the character list, so every definition reduces
inside the kernel.
-/

/-- `toUpperCase` (the status tokens compared against are ASCII). -/
def jsToUpper (s : String) : String :=
  ⟨s.data.map Char.toUpper⟩

/-- Whitespace stripped by `trim`. -/
def isWsChar (c : Char) : Bool :=
  c = ' ' ∨ c = '\t' ∨ c = '\n' ∨ c = '\r'

/-- `trim`: strip whitespace from both ends. -/
def jsTrim (s : String) : String :=
  ⟨((s.data.dropWhile isWsChar).reverse.dropWhile isWsChar).reverse⟩

/-- `startsWith`. -/
def jsStartsWith (s pre : String) : Bool :=
  pre.data.isPrefixOf s.data

/-- `includes(c)` for a single character. -/
def jsContainsChar (s : String) (c : Char) : Bool :=
  s.data.contains c

/-- Split a character list at every occurrence of `c`. -/
def splitCharAux (c : Char) (acc : List Char) : List Char → List (List Char)
  | [] => [acc.reverse]
  | x :: xs =>
    if x = c then acc.reverse :: splitCharAux c [] xs
    else splitCharAux c (x :: acc) xs

/-- `split(c)` for a single-character separator. -/
def jsSplitChar (c : Char) (s : String) : List String :=
  (splitCharAux c [] s.data).map (fun l => ⟨l⟩)

/-- `parts.join(sep)`. -/
def jsJoin (sep : String) (parts : List String) : String :=
  ⟨List.intercalate sep.data (parts.map String.data)⟩

/-- Decimal digit to character. -/
def digitChar (n : Nat) : Char :=
  Char.ofNat (48 + n)

/-- Decimal digits of `n`, most significant first (`fuel` bounds the
recursion; `n + 1` calls always suffice). -/
def natToStringAux : Nat → Nat → List Char
  | 0, _ => []
  | fuel + 1, n =>
    if n < 10 then [digitChar n]
    else natToStringAux fuel (n / 10) ++ [digitChar (n % 10)]

/-- `String(n)` for a natural number. -/
def natToString (n : Nat) : String :=
  ⟨natToStringAux (n + 1) n⟩

/-- `String(i)` for an integer (rule ids). -/
def intToString (i : Int) : String :=
  if i < 0 then "-" ++ natToString i.natAbs else natToString i.toNat

/-- Decimal digit of a character, if any. -/
def digit? (c : Char) : Option Nat :=
  if 48 ≤ c.toNat ∧ c.toNat ≤ 57 then some (c.toNat - 48) else none

/-- Auxiliary decimal parser. -/
def strToNatAux : List Char → Nat → Option Nat
  | [], acc => some acc
  | c :: cs, acc =>
    match digit? c with
    | some d => strToNatAux cs (acc * 10 + d)
    | none => none

/-- Canonical decimal array-index parse of a property key. -/
def strToNat? (s : String) : Option Nat :=
  if s.data = [] then none else strToNatAux s.data 0

/-- Classification of one status cell (`match[3]`), lines 705-725 of the
source: trim, upper-case, then match `DONE` / the `N/A` family (with the
justification extracted from the text after the first hyphen) /
`PARTIAL` / `IN PROGRESS`, defaulting to `todo`.  `rawStatusText.split('-').slice(1).join('-')`
is the text after the first hyphen, reassembled. -/
def parseStatusCell (raw : String) : SpecStatus × Option String :=
  let rawStatusText := jsTrim raw
  let statusText := jsToUpper rawStatusText
  if statusText = "DONE" then
    (.done, none)
  else if jsStartsWith statusText "N/A" ∨ statusText = "NA" ∨ statusText = "NOT APPLICABLE" then
    let justification : Option String :=
      if jsContainsChar rawStatusText '-' then
        some (jsTrim (jsJoin "-" ((jsSplitChar '-' rawStatusText).drop 1)))
      else
        none
    (.na, justification)
  else if statusText = "PARTIAL" ∨ statusText = "IN PROGRESS" then
    (.partialStatus, none)
  else
    (.todo, none)

/-- Body of the row loop once `workspaceCoverage.find(...)` has located the
entry for the row's guardrail id (lines 728-742): skip when the spec is
already tracked, otherwise push the spec coverage entry, extend
`coveredBy` for `DONE`, and collect a truthy (non-empty) justification for
`N/A`. -/
def updateCoverageEntry (specName : String) (raw : String) (c : GuardrailCoverage) :
    GuardrailCoverage :=
  let parsed := parseStatusCell raw
  let status := parsed.1
  let justification := parsed.2
  if (c.specCoverage.find? (fun sc => sc.specName = specName)).isSome then
    c
  else
    { c with
      specCoverage := c.specCoverage ++ [{ specName := specName, status := status, justification := justification }],
      coveredBy :=
        if status = SpecStatus.done ∧ ¬ specName ∈ c.coveredBy then
          c.coveredBy ++ [specName]
        else
          c.coveredBy,
      justifications :=
        match status, justification with
        | SpecStatus.na, some j => if j ≠ "" then c.justifications ++ [j] else c.justifications
        | _, _ => c.justifications }

/-- One iteration of the scanner loop: `workspaceCoverage.find(c => c.guardrail.id === guardrailId)`
locates the first entry with the row's id (rows whose id matches no entry
are dropped), and only that entry is updated. -/
def applyRowToCoverage (specName : String) (row : Int × String) :
    List GuardrailCoverage → List GuardrailCoverage
  | [] => []
  | c :: rest =>
    if c.guardrail.id = row.1 then
      updateCoverageEntry specName row.2 c :: rest
    else
      c :: applyRowToCoverage specName row rest

/-- `parseGuardrailCoverageForWorkspace`, over the row list produced by
`matrixPattern` in document order. -/
def parseGuardrailCoverageForWorkspace (specName : String) (rows : List (Int × String))
    (workspaceCoverage : List GuardrailCoverage) : List GuardrailCoverage :=
  rows.foldl (fun cov row => applyRowToCoverage specName row cov) workspaceCoverage

/-- Fresh coverage slots for a workspace's guardrails (`analyzeCoverage`,
initialisation of `workspaceCoverage`). -/
def initCoverage (guardrails : List Guardrail) : List GuardrailCoverage :=
  guardrails.map (fun g =>
    { guardrail := g, coveredBy := [], specCoverage := [],
      status := OverallStatus.notCovered, justifications := [] })

/-- Per-workspace part of `analyzeCoverage`: initialise slots, scan every
spec document (a `(specName, rows)` pair per sub-directory with a
requirements document), then recompute each entry's overall status. -/
def computeWorkspaceCoverage (guardrails : List Guardrail)
    (docs : List (String × List (Int × String))) : List GuardrailCoverage :=
  let scanned := docs.foldl
    (fun cov doc => parseGuardrailCoverageForWorkspace doc.1 doc.2 cov)
    (initCoverage guardrails)
  scanned.map (fun c => { c with status := calculateOverallStatus c.specCoverage })

/-!
Rule-set resolver (`loadGuardrailsForWorkspace` / `validateGuardrailConfig`).
The YAML document is a loosely typed JavaScript value; `JVal` models the
runtime values `js-yaml` can produce, with `typeof`, truthiness, property
access and `Object.entries` translated explicitly.
-/

/-- JavaScript runtime value as produced by `yaml.load`. -/
inductive JVal where
  | str (s : String)
  | num (n : Int)
  | boolean (b : Bool)
  | null
  | arr (items : List JVal)
  | obj (fields : List (String × JVal))

/-- `value === null`. -/
def JVal.isNull : JVal → Bool
  | .null => true
  | _ => false

/-- JavaScript `typeof`. -/
def JVal.typeof : JVal → String
  | .str _ => "string"
  | .num _ => "number"
  | .boolean _ => "boolean"
  | .null => "object"
  | .arr _ => "object"
  | .obj _ => "object"

/-- JavaScript truthiness (`!config` etc.). -/
def JVal.truthy : JVal → Bool
  | .str s => s ≠ ""
  | .num n => n ≠ 0
  | .boolean b => b
  | .null => false
  | .arr _ => true
  | .obj _ => true

/-- `Array.isArray`. -/
def JVal.isArray : JVal → Bool
  | .arr _ => true
  | _ => false

/-- JavaScript property access `v[key]`, `undefined` as `none`.  Objects
look keys up directly; arrays answer canonical numeric indices; property
access on primitives yields `undefined`. -/
def JVal.get? : JVal → String → Option JVal
  | .obj fields, k => (fields.find? (fun p => p.1 = k)).map (fun p => p.2)
  | .arr items, k =>
    match strToNat? k with
    | some n => items.get? n
    | none => none
  | _, _ => none

/-- `Object.entries` as used on the (already `typeof`-checked) `overrides`
value: object fields, or index/element pairs for an array. -/
def JVal.entries : JVal → List (String × JVal)
  | .obj fields => fields
  | .arr items => items.enum.map (fun p => (natToString p.1, p.2))
  | _ => []

/-- `validateGuardrailConfig`, `preset` block. -/
def presetErrors (v : JVal) : List String :=
  match v.get? "preset" with
  | none => []
  | some p => if p.typeof ≠ "string" then ["preset must be a string"] else []

/-- `validateGuardrailConfig`, `overrides` block. -/
def overridesErrors (v : JVal) : List String :=
  match v.get? "overrides" with
  | none => []
  | some ov =>
    if ov.typeof ≠ "object" ∨ ov.isNull then
      ["overrides must be an object"]
    else
      ov.entries.filterMap (fun kv =>
        if kv.2.typeof ≠ "object" ∨ kv.2.isNull then
          some ("overrides." ++ kv.1 ++ " must be an object")
        else
          none)

/-- `validateGuardrailConfig`, `disabled` block. -/
def disabledErrors (v : JVal) : List String :=
  match v.get? "disabled" with
  | none => []
  | some d =>
    match d with
    | .arr items =>
      (items.enum.filterMap (fun iv =>
        if iv.2.typeof ≠ "number" ∧ iv.2.typeof ≠ "string" then
          some ("disabled[" ++ natToString iv.1 ++ "] must be a number or string")
        else
          none))
    | _ => ["disabled must be an array"]

/-- `validateGuardrailConfig`, checks on one `custom[i]` entry. -/
def customEntryErrors (i : Nat) (c : JVal) : List String :=
  if c.typeof ≠ "object" ∨ c.isNull then
    ["custom[" ++ natToString i ++ "] must be an object"]
  else
    (match c.get? "id" with
      | some (.num _) => []
      | _ => ["custom[" ++ natToString i ++ "].id must be a number"]) ++
    (match c.get? "name" with
      | some (.str _) => []
      | _ => ["custom[" ++ natToString i ++ "].name must be a string"]) ++
    (match c.get? "severity" with
      | none => []
      | some (.str s) =>
        if s = "critical" ∨ s = "high" ∨ s = "medium" ∨ s = "low" then []
        else ["custom[" ++ natToString i ++ "].severity must be one of: critical, high, medium, low"]
      | some _ => ["custom[" ++ natToString i ++ "].severity must be one of: critical, high, medium, low"])

/-- `validateGuardrailConfig`, `custom` block. -/
def customErrors (v : JVal) : List String :=
  match v.get? "custom" with
  | none => []
  | some c =>
    match c with
    | .arr items => (items.enum.map (fun iv => customEntryErrors iv.1 iv.2)).flatten
    | _ => ["custom must be an array"]

/-- `validateGuardrailConfig`, `selected_ids` block. -/
def selectedIdsErrors (v : JVal) : List String :=
  match v.get? "selected_ids" with
  | none => []
  | some s =>
    match s with
    | .arr items =>
      (items.enum.filterMap (fun iv =>
        if iv.2.typeof ≠ "number" then
          some ("selected_ids[" ++ natToString iv.1 ++ "] must be a number")
        else
          none))
    | _ => ["selected_ids must be an array"]

/-- `validateGuardrailConfig`: the five field checks, errors accumulated in
source order. -/
def validateGuardrailConfig (v : JVal) : List String :=
  presetErrors v ++ overridesErrors v ++ disabledErrors v ++ customErrors v ++ selectedIdsErrors v

/-- Step 4, preset lookup: `PRESET_GUARDRAILS[config.preset]`. -/
def presetLookup (s : String) : Option (List Guardrail) :=
  (PRESET_GUARDRAILS.find? (fun p => p.1 = s)).map (fun p => p.2)

/-- Step 5, `overrides`: for each rule, look its stringified id up in the
overrides value; when the override entry is truthy and its `enabled` field
is a boolean, replace the rule's `enabled` flag. -/
def applyOverrides (ov : JVal) (guardrails : List Guardrail) : List Guardrail :=
  guardrails.map (fun g =>
    match ov.get? (intToString g.id) with
    | some o =>
      if o.truthy then
        match o.get? "enabled" with
        | some (.boolean b) => { g with enabled := b }
        | _ => g
      else g
    | none => g)

/-- Step 6, one `disabled` entry versus one rule:
`d === guardrail.id || d === String(guardrail.id) || d === guardrail.name`
(strict equality, so a number entry only matches the numeric id and a
string entry only the stringified id or the exact name). -/
def matchesDisabled (g : Guardrail) (d : JVal) : Bool :=
  match d with
  | .num n => n = g.id
  | .str s => s = intToString g.id ∨ s = g.name
  | _ => false

/-- Step 6, `disabled`: force `enabled = false` on every rule matched by
some entry of the disabled list. -/
def applyDisabled (items : List JVal) (guardrails : List Guardrail) : List Guardrail :=
  guardrails.map (fun g =>
    if items.any (matchesDisabled g) then { g with enabled := false } else g)

/-- Step 7, one `custom` entry: the truthiness guard `custom.id && custom.name`
(a number is truthy iff non-zero, a string iff non-empty), then defaults
`description || ''`, `severity || 'medium'`, `enabled ?? true`.  Validation
has already ensured `id` is a number and `name` a string when this runs;
unvalidated `description`/`enabled` of non-string/non-boolean shape are
mapped through their JavaScript coercions at the field's use sites
(truthiness), the only way those fields are consumed. -/
def customToGuardrail? (c : JVal) : Option Guardrail :=
  match c.get? "id", c.get? "name" with
  | some (.num i), some (.str n) =>
    if i ≠ 0 ∧ n ≠ "" then
      some {
        id := i,
        name := n,
        description := (match c.get? "description" with
          | some (.str s) => s
          | _ => ""),
        severity := (match c.get? "severity" with
          | some (.str s) => if s ≠ "" then s else "medium"
          | _ => "medium"),
        enabled := (match c.get? "enabled" with
          | some (.boolean b) => b
          | some JVal.null => true
          | none => true
          | some v => v.truthy) }
    else none
  | _, _ => none

/-- Step 7, `custom`: append each entry passing the truthiness guard. -/
def applyCustom (items : List JVal) (guardrails : List Guardrail) : List Guardrail :=
  guardrails ++ items.filterMap customToGuardrail?

/-- JavaScript `Map` lookup where the map was built by successive `set`
calls on the given association list: the last binding of a key wins. -/
def lookupLast {α : Type} (l : List (String × α)) (k : String) : Option α :=
  match l with
  | [] => none
  | kv :: rest =>
    match lookupLast rest k with
    | some v => some v
    | none => if kv.1 = k then some kv.2 else none

/-- `new Map(guardrails.map(g => [g.id, g])).get(i)`: last binding wins. -/
def mapGetLast (l : List Guardrail) (i : Int) : Option Guardrail :=
  match l with
  | [] => none
  | g :: rest =>
    match mapGetLast rest i with
    | some r => some r
    | none => if g.id = i then some g else none

/-- Step 8, `selected_ids`: keep only rules whose id is selected, then
rebuild the list in `selected_ids` order via a `Map` keyed by id,
silently skipping selected ids with no matching rule. -/
def applySelectedIds (ids : List Int) (guardrails : List Guardrail) : List Guardrail :=
  let filtered := guardrails.filter (fun g => decide (g.id ∈ ids))
  ids.filterMap (fun i => mapGetLast filtered i)

/-- State of a root's configuration document: absent
(`fs.existsSync` false), unreadable or structurally malformed
(`readFileSync`/`yaml.load` threw), or loaded as a value. -/
inductive ConfigDoc where
  | missing
  | parseError (msg : String)
  | parsed (v : JVal)

/-- Result of `loadGuardrailsForWorkspace`: the `{ guardrails, preset }`
return value plus the diagnostic surfaced through
`lastParseError`/`showParseError` (explicit state passing for the side
channel; `none` when no warning was shown). -/
structure LoadResult where
  guardrails : List Guardrail
  preset : Option String
  diagnostic : Option String
deriving DecidableEq

/-- `loadGuardrailsForWorkspace`: start from a copy of the core rules
(copying is the identity on immutable values); return them unchanged when
the document is absent or falsy; on a thrown parse error or failed schema
validation return them with a diagnostic; otherwise layer preset,
overrides, disabled, custom and selected_ids in source order.
`wsDisplay` is the workspace basename interpolated into diagnostics. -/
def loadGuardrailsForWorkspace (wsDisplay : String) (doc : ConfigDoc) : LoadResult :=
  let guardrails := CORE_GUARDRAILS
  match doc with
  | .missing => { guardrails := guardrails, preset := none, diagnostic := none }
  | .parseError msg =>
    { guardrails := guardrails, preset := none,
      diagnostic := some ("Failed to parse guardrails.yaml in " ++ wsDisplay ++ ": " ++ msg) }
  | .parsed v =>
    if ¬ v.truthy then
      { guardrails := guardrails, preset := none, diagnostic := none }
    else
      let validationErrors := validateGuardrailConfig v
      if validationErrors.length > 0 then
        { guardrails := guardrails, preset := none,
          diagnostic := some ("Schema validation errors in " ++ wsDisplay ++ ": " ++
            jsJoin "; " validationErrors) }
      else
        let preset : Option String :=
          match v.get? "preset" with
          | some (.str s) => some s
          | _ => none
        let guardrails :=
          match preset with
          | some s =>
            if s ≠ "" ∧ s ≠ "custom" then
              match presetLookup s with
              | some presetGuardrails => guardrails ++ presetGuardrails
              | none => guardrails
            else guardrails
          | none => guardrails
        let guardrails :=
          match v.get? "overrides" with
          | some ov => if ov.truthy then applyOverrides ov guardrails else guardrails
          | none => guardrails
        let guardrails :=
          match v.get? "disabled" with
          | some (.arr items) => applyDisabled items guardrails
          | _ => guardrails
        let guardrails :=
          match v.get? "custom" with
          | some (.arr items) => applyCustom items guardrails
          | _ => guardrails
        let guardrails :=
          match v.get? "selected_ids" with
          | some (.arr items) =>
            applySelectedIds (items.filterMap (fun i =>
              match i with
              | JVal.num n => some n
              | _ => none)) guardrails
          | _ => guardrails
        { guardrails := guardrails, preset := preset, diagnostic := none }

/-!
Multi-root aggregation (`loadGuardrails` / `analyzeCoverage`) and conflict
detection (`checkForConflictingConfigs`).  The per-workspace `Map`s are
association lists read through `lookupLast`; the filesystem is a function
from an absolute root path to its configuration document and its spec
documents.
-/

/-- One entry of `workspacePaths`: absolute path plus display basename. -/
structure RootDesc where
  path : String
  name : String
deriving DecidableEq

/-- `path.basename` for POSIX-style paths: the last non-empty
slash-separated component. -/
def basename (p : String) : String :=
  ((((jsSplitChar '/') p).filter (fun s => s ≠ "")).getLast?).getD p

/-- `loadGuardrails` without an active project: pick the workspaces to
load (all of them, or just the primary when `ldf.primaryGuardrailWorkspace`
names a configured root), resolve each one keyed by its absolute path,
then, in primary mode, propagate the primary's rule-set to every root.
Returns the `guardrailsPerWorkspace` and `presetsPerWorkspace` maps. -/
def loadGuardrailsMaps (roots : List RootDesc) (primary : String)
    (fileSystem : String → ConfigDoc) :
    List (String × List Guardrail) × List (String × Option String) :=
  let workspacesToLoad :=
    if primary ≠ "" then
      match roots.find? (fun w => w.path = primary) with
      | some w => [w]
      | none => roots
    else roots
  let loaded := workspacesToLoad.map
    (fun w => (w, loadGuardrailsForWorkspace w.name (fileSystem w.path)))
  let gmap := loaded.map (fun wr => (wr.1.path, wr.2.guardrails))
  let pmap := loaded.map (fun wr => (wr.1.path, wr.2.preset))
  let gmap :=
    if primary ≠ "" ∧ workspacesToLoad.length = 1 then
      match workspacesToLoad.head? with
      | some w =>
        match lookupLast gmap w.path with
        | some primaryGuardrails => roots.map (fun w2 => (w2.path, primaryGuardrails))
        | none => gmap
      | none => gmap
    else gmap
  (gmap, pmap)

/-- `analyzeCoverage` without an active project: for every configured
root, compute coverage from that root's own spec documents against the
rule-set stored under its absolute path (empty when absent), and store
the result keyed by the absolute path. -/
def analyzeCoverageMaps (roots : List RootDesc)
    (gmap : List (String × List Guardrail))
    (specDocs : String → List (String × List (Int × String))) :
    List (String × List GuardrailCoverage) :=
  roots.map (fun w =>
    (w.path, computeWorkspaceCoverage ((lookupLast gmap w.path).getD []) (specDocs w.path)))

/-- JavaScript `Set` built by insertion: deduplicate keeping first
occurrences, preserving insertion order (`Array.from(set)`). -/
def dedupKeepFirstGo (seen : List String) : List String → List String
  | [] => []
  | s :: rest => if s ∈ seen then dedupKeepFirstGo seen rest else s :: dedupKeepFirstGo (s :: seen) rest

/-- `Array.from(new Set(l))`. -/
def dedupKeepFirst (l : List String) : List String :=
  dedupKeepFirstGo [] l

/-- First-seen record for one guardrail id (`seenGuardrails` map values). -/
structure SeenEntry where
  name : String
  severity : String
  workspaceDisplay : String
deriving DecidableEq

/-- One conflict line:
`ID <id>: '<firstName>' (<firstWs>) vs '<otherName>' (<otherWs>)`. -/
def conflictLine (gid : Int) (e : SeenEntry) (gname : String) (display : String) : String :=
  "ID " ++ intToString gid ++ ": \x27" ++ e.name ++ "\x27 (" ++ e.workspaceDisplay ++
    ") vs \x27" ++ gname ++ "\x27 (" ++ display ++ ")"

/-- Inner loop of check 2: fold one guardrail into the
`(seenGuardrails, idConflicts)` state. -/
def stepGuardrail (display : String)
    (st : List (Int × SeenEntry) × List String) (g : Guardrail) :
    List (Int × SeenEntry) × List String :=
  match (st.1.find? (fun p => p.1 = g.id)).map (fun p => p.2) with
  | some existing =>
    if existing.name ≠ g.name ∨ existing.severity ≠ g.severity then
      (st.1, st.2 ++ [conflictLine g.id existing g.name display])
    else
      (st.1, st.2)
  | none =>
    (st.1 ++ [(g.id, { name := g.name, severity := g.severity, workspaceDisplay := display })], st.2)

/-- Check 2 of `checkForConflictingConfigs`: walk `guardrailsPerWorkspace`
in insertion order, remembering the first definition of each id and
recording a conflict line whenever a later definition differs in name or
severity. -/
def collectIdConflicts (gmap : List (String × List Guardrail)) : List String :=
  (gmap.foldl
    (fun st entry => entry.2.foldl (stepGuardrail (basename entry.1)) st)
    ([], [])).2

/-- Warning text for preset divergence. -/
def presetConflictMessage (uniquePresets : List String) : String :=
  "LDF: Multiple guardrail presets detected (" ++ jsJoin ", " uniquePresets ++
    "). Coverage may be inconsistent. Consider setting ldf.primaryGuardrailWorkspace."

/-- Warning text for id-level conflicts: the first conflict as example,
prefixed with the total count when more than one exists. -/
def idConflictMessage (exampleLine : String) (total : Nat) : String :=
  if total = 1 then
    "LDF: Guardrail ID conflict detected (" ++ exampleLine ++ "). Consider setting ldf.primaryGuardrailWorkspace."
  else
    "LDF: " ++ natToString total ++ " guardrail ID conflicts detected (e.g., " ++ exampleLine ++
      "). Consider setting ldf.primaryGuardrailWorkspace."

/-- `checkForConflictingConfigs`: returns the warning message shown, or
`none`.  Skipped for a single root or when a primary workspace is
configured; the preset-divergence check fires first and suppresses the
id-conflict check. -/
def checkForConflictingConfigs (workspacePaths : List RootDesc) (primary : String)
    (presetsPerWorkspace : List (String × Option String))
    (guardrailsPerWorkspace : List (String × List Guardrail)) : Option String :=
  if workspacePaths.length ≤ 1 ∨ primary ≠ "" then
    none
  else
    let uniquePresets := dedupKeepFirst
      (presetsPerWorkspace.filterMap (fun p => p.2))
    if uniquePresets.length > 1 then
      some (presetConflictMessage uniquePresets)
    else
      match collectIdConflicts guardrailsPerWorkspace with
      | [] => none
      | exampleLine :: rest => some (idConflictMessage exampleLine (rest.length + 1))

/-! Theorems. -/

/-- The reducer, rewritten with its conditions phrased directly over the
coverage rows (the `statuses` list is the row list mapped to statuses, so
`includes`/`every` over it are bounded quantifiers over the rows). -/
theorem calculateOverallStatus_eq (l : List SpecCoverage) :
    calculateOverallStatus l =
      if l = [] then .notCovered
      else if ∀ sc ∈ l, sc.status = SpecStatus.na then .notApplicable
      else if (∃ sc ∈ l, sc.status = SpecStatus.partialStatus) ∨
          ((∃ sc ∈ l, sc.status = SpecStatus.done) ∧ (∃ sc ∈ l, sc.status = SpecStatus.todo)) then
        .partialCov
      else if (∃ sc ∈ l, sc.status = SpecStatus.done) ∧
          ¬ (∃ sc ∈ l, sc.status = SpecStatus.todo) ∧
          ¬ (∃ sc ∈ l, sc.status = SpecStatus.partialStatus) then
        .covered
      else .notCovered := by
  unfold calculateOverallStatus
  refine if_congr List.length_eq_zero rfl ?_
  refine if_congr (by simp [statusesOf]) rfl ?_
  refine if_congr (by simp [statusesOf]) rfl ?_
  exact if_congr (by simp [statusesOf]) rfl rfl

/-- C1.  The coverage reducer, as a pure function of the status multiset:
empty row set reduces to not-covered; for a non-empty row set the result
is not-applicable exactly when every row is not-applicable; the result is
partial exactly when some row is partial or rows contain both done and
todo; covered exactly when some row is done with no todo and no partial
row; not-covered in every remaining case; and the result is invariant
under permutation of the rows' statuses. -/
theorem calculateOverallStatus_reduction_spec (l : List SpecCoverage) :
    (l = [] → calculateOverallStatus l = OverallStatus.notCovered)
    ∧ (l ≠ [] →
        (calculateOverallStatus l = OverallStatus.notApplicable ↔
          ∀ sc ∈ l, sc.status = SpecStatus.na))
    ∧ (calculateOverallStatus l = OverallStatus.partialCov ↔
        ((∃ sc ∈ l, sc.status = SpecStatus.partialStatus) ∨
         ((∃ sc ∈ l, sc.status = SpecStatus.done) ∧ (∃ sc ∈ l, sc.status = SpecStatus.todo))))
    ∧ (calculateOverallStatus l = OverallStatus.covered ↔
        ((∃ sc ∈ l, sc.status = SpecStatus.done) ∧
         ¬ (∃ sc ∈ l, sc.status = SpecStatus.todo) ∧
         ¬ (∃ sc ∈ l, sc.status = SpecStatus.partialStatus)))
    ∧ (calculateOverallStatus l = OverallStatus.notCovered ↔
        (l = [] ∨
         (¬ (∀ sc ∈ l, sc.status = SpecStatus.na)
          ∧ ¬ ((∃ sc ∈ l, sc.status = SpecStatus.partialStatus) ∨
               ((∃ sc ∈ l, sc.status = SpecStatus.done) ∧ (∃ sc ∈ l, sc.status = SpecStatus.todo)))
          ∧ ¬ ((∃ sc ∈ l, sc.status = SpecStatus.done) ∧
               ¬ (∃ sc ∈ l, sc.status = SpecStatus.todo) ∧
               ¬ (∃ sc ∈ l, sc.status = SpecStatus.partialStatus)))))
    ∧ (∀ l' : List SpecCoverage, (statusesOf l).Perm (statusesOf l') →
        calculateOverallStatus l = calculateOverallStatus l') := by
  refine ⟨?_, ?_, ?_, ?_, ?_, ?_⟩
  · intro h
    rw [calculateOverallStatus_eq, if_pos h]
  · intro h
    rw [calculateOverallStatus_eq, if_neg h]
    split_ifs with h2 h3 h4 <;> simp_all
  · rw [calculateOverallStatus_eq]
    split_ifs with h1 h2 h3 h4 <;> simp_all <;> tauto
  · rw [calculateOverallStatus_eq]
    split_ifs with h1 h2 h3 h4 <;> simp_all <;> tauto
  · rw [calculateOverallStatus_eq]
    split_ifs with h1 h2 h3 h4 <;> simp_all <;> tauto
  · intro l' hp
    have hlen : l.length = l'.length := by
      have := hp.length_eq
      simpa [statusesOf] using this
    have hnil : l = [] ↔ l' = [] := by
      rw [← List.length_eq_zero, ← List.length_eq_zero, hlen]
    have hmem : ∀ x : SpecStatus,
        (∃ sc ∈ l, sc.status = x) ↔ (∃ sc ∈ l', sc.status = x) := by
      intro x
      have h1 : (∃ sc ∈ l, sc.status = x) ↔ x ∈ statusesOf l := by simp [statusesOf]
      have h2 : (∃ sc ∈ l', sc.status = x) ↔ x ∈ statusesOf l' := by simp [statusesOf]
      rw [h1, h2]
      exact hp.mem_iff
    have hall : (∀ sc ∈ l, sc.status = SpecStatus.na) ↔
        (∀ sc ∈ l', sc.status = SpecStatus.na) := by
      have h1 : (∀ sc ∈ l, sc.status = SpecStatus.na) ↔
          (∀ s ∈ statusesOf l, s = SpecStatus.na) := by simp [statusesOf]
      have h2 : (∀ sc ∈ l', sc.status = SpecStatus.na) ↔
          (∀ s ∈ statusesOf l', s = SpecStatus.na) := by simp [statusesOf]
      rw [h1, h2]
      exact ⟨fun h s hs => h s (hp.mem_iff.mpr hs), fun h s hs => h s (hp.mem_iff.mp hs)⟩
    rw [calculateOverallStatus_eq, calculateOverallStatus_eq]
    refine if_congr hnil rfl ?_
    refine if_congr hall rfl ?_
    refine if_congr (or_congr (hmem _) (and_congr (hmem _) (hmem _))) rfl ?_
    exact if_congr (and_congr (hmem _) (and_congr (not_congr (hmem _)) (not_congr (hmem _)))) rfl rfl

/-- Concrete instantiation of the reducer characterisation: a done row
plus a todo row reduces to partial. -/
theorem calculateOverallStatus_reduction_spec_witness :
    calculateOverallStatus
      [{ specName := "a", status := SpecStatus.done },
       { specName := "b", status := SpecStatus.todo }] = OverallStatus.partialCov :=
  (calculateOverallStatus_reduction_spec
    [{ specName := "a", status := SpecStatus.done },
     { specName := "b", status := SpecStatus.todo }]).2.2.1.mpr (by decide)

/-- C3.  Any status cell whose trimmed, upper-cased text starts with
`N/A` or equals `NA` or `NOT APPLICABLE` is classified as
not-applicable; when the trimmed cell contains a hyphen a justification
is captured; and on the concrete cell `N/A - not multi-tenant` the
captured justification is exactly `not multi-tenant`. -/
theorem parseStatusCell_na_spec (raw : String)
    (h : jsStartsWith (jsToUpper (jsTrim raw)) "N/A" = true ∨
         jsToUpper (jsTrim raw) = "NA" ∨ jsToUpper (jsTrim raw) = "NOT APPLICABLE") :
    (parseStatusCell raw).1 = SpecStatus.na
    ∧ (jsContainsChar (jsTrim raw) '-' = true → ∃ j, (parseStatusCell raw).2 = some j)
    ∧ parseStatusCell "N/A - not multi-tenant" = (SpecStatus.na, some "not multi-tenant") := by
  have hne : ¬ jsToUpper (jsTrim raw) = "DONE" := by
    intro he
    rw [he] at h
    revert h
    decide
  simp only [parseStatusCell]
  rw [if_neg hne, if_pos h]
  refine ⟨rfl, ?_, by decide⟩
  intro hc
  rw [if_pos hc]
  exact ⟨_, rfl⟩

/-- Concrete discharge of the `N/A` family hypothesis. -/
theorem parseStatusCell_na_spec_witness :
    (parseStatusCell "N/A - not multi-tenant").1 = SpecStatus.na
    ∧ (jsContainsChar (jsTrim "N/A - not multi-tenant") '-' = true →
        ∃ j, (parseStatusCell "N/A - not multi-tenant").2 = some j)
    ∧ parseStatusCell "N/A - not multi-tenant" = (SpecStatus.na, some "not multi-tenant") :=
  parseStatusCell_na_spec "N/A - not multi-tenant" (by decide)

/-- `find?` over a snoc list succeeds when the appended element matches. -/
theorem find?_append_singleton {α : Type} (l : List α) (e : α) (p : α → Bool)
    (hp : p e = true) : ((l ++ [e]).find? p).isSome = true := by
  induction l with
  | nil => simp [List.find?, hp]
  | cons x xs ih =>
    by_cases hx : p x
    · simp [List.find?, hx]
    · simpa [List.find?, hx] using ih

/-- The scanner loop body never changes which guardrail an entry is for. -/
theorem updateCoverageEntry_guardrail (s r : String) (c : GuardrailCoverage) :
    (updateCoverageEntry s r c).guardrail = c.guardrail := by
  unfold updateCoverageEntry
  split_ifs <;> rfl

/-- After the loop body runs, the spec is tracked in the entry. -/
theorem updateCoverageEntry_tracked (s r : String) (c : GuardrailCoverage) :
    ((updateCoverageEntry s r c).specCoverage.find?
      (fun sc => sc.specName = s)).isSome = true := by
  unfold updateCoverageEntry
  by_cases hf : (c.specCoverage.find? (fun sc => sc.specName = s)).isSome = true
  · rw [if_pos hf]
    exact hf
  · rw [if_neg hf]
    exact find?_append_singleton _ _ _ (by simp)

/-- A tracked spec makes the loop body a no-op. -/
theorem updateCoverageEntry_of_tracked (s r : String) (c : GuardrailCoverage)
    (h : (c.specCoverage.find? (fun sc => sc.specName = s)).isSome = true) :
    updateCoverageEntry s r c = c := by
  unfold updateCoverageEntry
  rw [if_pos h]

/-- Unfolding equation of the scanner loop step on a non-empty list. -/
theorem applyRow_cons (specName : String) (i : Int) (r : String)
    (c : GuardrailCoverage) (rest : List GuardrailCoverage) :
    applyRowToCoverage specName (i, r) (c :: rest) =
      if c.guardrail.id = i then updateCoverageEntry specName r c :: rest
      else c :: applyRowToCoverage specName (i, r) rest := rfl

/-- C7.  Rows whose rule id matches no coverage entry are ignored
entirely, and a second row for the same (rule id, spec) pair is ignored
no matter its status text (first-write-wins); concretely, scanning the
rows `1. ... TODO` then `1. ... DONE` of one document records only the
first row's `todo`. -/
theorem scanner_first_write_wins (specName : String) (i : Int) (raw raw2 : String)
    (cov : List GuardrailCoverage)
    (h : ∀ c ∈ cov, c.guardrail.id ≠ i) :
    applyRowToCoverage specName (i, raw) cov = cov
    ∧ (∀ cov' : List GuardrailCoverage,
        applyRowToCoverage specName (i, raw2) (applyRowToCoverage specName (i, raw) cov') =
          applyRowToCoverage specName (i, raw) cov')
    ∧ (parseGuardrailCoverageForWorkspace "spec-a" [(1, "TODO"), (1, "DONE")]
        (initCoverage (CORE_GUARDRAILS.take 1))).map (fun c => c.specCoverage) =
      [[{ specName := "spec-a", status := SpecStatus.todo }]] := by
  refine ⟨?_, ?_, by decide⟩
  · induction cov with
    | nil => rfl
    | cons c rest ih =>
      have hc : ¬ c.guardrail.id = i := h c (List.mem_cons_self c rest)
      rw [applyRow_cons, if_neg hc, ih (fun x hx => h x (List.mem_cons_of_mem c hx))]
  · intro cov'
    induction cov' with
    | nil => rfl
    | cons c rest ih =>
      by_cases hc : c.guardrail.id = i
      · have hid : (updateCoverageEntry specName raw c).guardrail.id = i := by
          rw [updateCoverageEntry_guardrail]
          exact hc
        rw [applyRow_cons, if_pos hc, applyRow_cons, if_pos hid,
          updateCoverageEntry_of_tracked _ _ _ (updateCoverageEntry_tracked specName raw c)]
      · rw [applyRow_cons, if_neg hc, applyRow_cons, if_neg hc, ih]

/-- Concrete discharge of the unknown-rule-id hypothesis: a row for rule
99 leaves a rule-1 coverage list untouched. -/
theorem scanner_first_write_wins_witness :
    applyRowToCoverage "spec-a" (99, "DONE") (initCoverage (CORE_GUARDRAILS.take 1)) =
      initCoverage (CORE_GUARDRAILS.take 1) :=
  (scanner_first_write_wins "spec-a" 99 "DONE" "TODO" _ (by decide)).1

/-- A falsy parsed value (null, false, 0 or the empty string) has no
validation errors: every field read on it is `undefined`. -/
theorem validate_falsy (v : JVal) (h : v.truthy = false) :
    validateGuardrailConfig v = [] := by
  cases v <;> first | rfl | simp [JVal.truthy] at h

/-- C4.  A configuration document failing schema validation yields exactly
the unmodified baseline rule-set, an undefined preset, and a diagnostic
joining the validation failures; no field of the document is applied. -/
theorem loadGuardrails_validation_atomicity (wsDisplay : String) (v : JVal)
    (h : validateGuardrailConfig v ≠ []) :
    loadGuardrailsForWorkspace wsDisplay (.parsed v) =
      { guardrails := CORE_GUARDRAILS, preset := none,
        diagnostic := some ("Schema validation errors in " ++ wsDisplay ++ ": " ++
          jsJoin "; " (validateGuardrailConfig v)) } := by
  have htruthy : v.truthy = true := by
    cases hv : v.truthy
    · exact absurd (validate_falsy v hv) h
    · rfl
  have hlen : (validateGuardrailConfig v).length > 0 :=
    List.length_pos.mpr h
  simp only [loadGuardrailsForWorkspace]
  rw [if_neg (by simp [htruthy]), if_pos hlen]

/-- Concrete discharge: a document with a valid `preset: saas` and an
invalid `disabled` field resolves to the untouched baseline (the valid
preset is not applied) with a diagnostic naming the failure. -/
theorem loadGuardrails_validation_atomicity_witness :
    loadGuardrailsForWorkspace "app"
      (.parsed (JVal.obj [("preset", JVal.str "saas"), ("disabled", JVal.str "nope")])) =
      { guardrails := CORE_GUARDRAILS, preset := none,
        diagnostic := some ("Schema validation errors in app: " ++
          jsJoin "; " (validateGuardrailConfig
            (JVal.obj [("preset", JVal.str "saas"), ("disabled", JVal.str "nope")]))) } :=
  loadGuardrails_validation_atomicity "app"
    (JVal.obj [("preset", JVal.str "saas"), ("disabled", JVal.str "nope")]) (by decide)

/-- C10.  A configuration document that parses to a falsy value (an empty
YAML file loads as null) resolves exactly like an absent document:
baseline rules, undefined preset, and no diagnostic. -/
theorem loadGuardrails_null_config (wsDisplay : String) (v : JVal)
    (h : v.truthy = false) :
    loadGuardrailsForWorkspace wsDisplay (.parsed v) =
      { guardrails := CORE_GUARDRAILS, preset := none, diagnostic := none }
    ∧ loadGuardrailsForWorkspace wsDisplay (.parsed v) =
      loadGuardrailsForWorkspace wsDisplay ConfigDoc.missing := by
  have : loadGuardrailsForWorkspace wsDisplay (.parsed v) =
      { guardrails := CORE_GUARDRAILS, preset := none, diagnostic := none } := by
    simp only [loadGuardrailsForWorkspace]
    rw [if_pos (by simp [h])]
  exact ⟨this, this.trans rfl⟩

/-- Concrete discharge at the null value. -/
theorem loadGuardrails_null_config_witness :
    loadGuardrailsForWorkspace "app" (.parsed JVal.null) =
      { guardrails := CORE_GUARDRAILS, preset := none, diagnostic := none }
    ∧ loadGuardrailsForWorkspace "app" (.parsed JVal.null) =
      loadGuardrailsForWorkspace "app" ConfigDoc.missing :=
  loadGuardrails_null_config "app" JVal.null rfl

/-- C9.  A custom entry with numeric id and string name always passes the
per-entry validation; the truthiness guard then drops it exactly when the
id is 0 or the name is empty, and otherwise appends it with description
defaulted to the empty string, severity to medium and enabled to true.
Concretely, a config whose custom list holds `{id: 0, name: "X"}` and
`{id: 99, name: "Y"}` resolves without any diagnostic to the baseline
plus only rule 99 with the defaulted fields. -/
theorem customGuardrail_truthiness_spec (i : Int) (n : String) (idx : Nat) :
    customEntryErrors idx (JVal.obj [("id", JVal.num i), ("name", JVal.str n)]) = []
    ∧ ((i = 0 ∨ n = "") →
        customToGuardrail? (JVal.obj [("id", JVal.num i), ("name", JVal.str n)]) = none)
    ∧ (i ≠ 0 → n ≠ "" →
        customToGuardrail? (JVal.obj [("id", JVal.num i), ("name", JVal.str n)]) =
          some { id := i, name := n, description := "", severity := "medium", enabled := true })
    ∧ loadGuardrailsForWorkspace "app"
        (.parsed (JVal.obj [("custom", JVal.arr
          [JVal.obj [("id", JVal.num 0), ("name", JVal.str "X")],
           JVal.obj [("id", JVal.num 99), ("name", JVal.str "Y")]])])) =
      { guardrails := CORE_GUARDRAILS ++
          [{ id := 99, name := "Y", description := "", severity := "medium", enabled := true }],
        preset := none, diagnostic := none } := by
  refine ⟨rfl, ?_, ?_, by decide⟩
  · intro h
    have hcond : ¬ (i ≠ 0 ∧ n ≠ "") := by tauto
    simp [customToGuardrail?, JVal.get?, List.find?, hcond]
  · intro hi hn
    simp [customToGuardrail?, JVal.get?, List.find?, hi, hn]

/-- Concrete discharge of the truthiness branches. -/
theorem customGuardrail_truthiness_spec_witness :
    customToGuardrail? (JVal.obj [("id", JVal.num 0), ("name", JVal.str "X")]) = none
    ∧ customToGuardrail? (JVal.obj [("id", JVal.num 99), ("name", JVal.str "Y")]) =
      some { id := 99, name := "Y", description := "", severity := "medium", enabled := true } :=
  ⟨(customGuardrail_truthiness_spec 0 "X" 0).2.1 (Or.inl rfl),
   (customGuardrail_truthiness_spec 99 "Y" 1).2.2.1 (by decide) (by decide)⟩

/-- `matchesDisabled` reads only the id and name, so the enabled flag does
not affect it. -/
theorem matchesDisabled_set_enabled (g : Guardrail) (b : Bool) (d : JVal) :
    matchesDisabled { g with enabled := b } d = matchesDisabled g d := by
  cases d <;> rfl

/-- C5.  The disabled list is applied after the overrides step and is
authoritative: every rule in the output of the disabled step that matches
some disabled entry (by numeric id, stringified id, or exact name) is
disabled, whatever the overrides said.  Concretely, a config overriding
rule 3 to `enabled: true` while listing 3 in `disabled` resolves rule 3
disabled. -/
theorem disabled_overrides_precedence (dis : List JVal) (ov : JVal)
    (gs : List Guardrail) (g : Guardrail)
    (hmem : g ∈ applyDisabled dis (applyOverrides ov gs))
    (hdis : dis.any (matchesDisabled g) = true) :
    g.enabled = false
    ∧ (loadGuardrailsForWorkspace "app"
        (.parsed (JVal.obj [("overrides", JVal.obj [("3", JVal.obj [("enabled", JVal.boolean true)])]),
          ("disabled", JVal.arr [JVal.num 3])]))).guardrails.find?
        (fun r => r.id = 3) =
      some ⟨3, "Error Handling", "Consistent error responses", "high", false⟩ := by
  refine ⟨?_, by decide⟩
  rcases List.mem_map.mp hmem with ⟨a, ha, hg⟩
  by_cases hcase : dis.any (matchesDisabled a) = true
  · rw [← hg]
    simp [hcase]
  · rw [← hg] at hdis
    simp [hcase] at hdis

/-- Concrete discharge: rule 3, overridden on and disabled, ends disabled
after the two steps. -/
theorem disabled_overrides_precedence_witness :
    (⟨3, "Error Handling", "Consistent error responses", "high", false⟩ : Guardrail).enabled = false :=
  (disabled_overrides_precedence [JVal.num 3]
    (JVal.obj [("3", JVal.obj [("enabled", JVal.boolean true)])])
    CORE_GUARDRAILS
    ⟨3, "Error Handling", "Consistent error responses", "high", false⟩
    (by decide) (by decide)).1

/-- `mapGetLast` misses when no element carries the id. -/
theorem mapGetLast_eq_none (l : List Guardrail) (i : Int)
    (h : ∀ g ∈ l, g.id ≠ i) : mapGetLast l i = none := by
  induction l with
  | nil => rfl
  | cons g rest ih =>
    unfold mapGetLast
    rw [ih (fun x hx => h x (List.mem_cons_of_mem g hx))]
    simp [h g (List.mem_cons_self g rest)]

/-- Unfolding equation of `mapGetLast` on a non-empty list. -/
theorem mapGetLast_cons (g : Guardrail) (l : List Guardrail) (i : Int) :
    mapGetLast (g :: l) i =
      match mapGetLast l i with
      | some r => some r
      | none => if g.id = i then some g else none := rfl

/-- `mapGetLast` skips a head with a different id. -/
theorem mapGetLast_cons_ne (g : Guardrail) (l : List Guardrail) (i : Int)
    (h : ¬ g.id = i) : mapGetLast (g :: l) i = mapGetLast l i := by
  rw [mapGetLast_cons]
  cases mapGetLast l i <;> simp [h]

/-- With duplicate-free rule ids, the last-wins `Map` lookup over the
id-filtered list agrees with the first match in the accumulated list. -/
theorem mapGetLast_filter_eq_find? (gs : List Guardrail) (ids : List Int) (i : Int)
    (hnodup : (gs.map (fun g => g.id)).Nodup) (hi : i ∈ ids) :
    mapGetLast (gs.filter (fun g => decide (g.id ∈ ids))) i =
      gs.find? (fun g => g.id = i) := by
  induction gs with
  | nil => rfl
  | cons g rest ih =>
    have hnodup' : g.id ∉ rest.map (fun g => g.id) ∧ (rest.map (fun g => g.id)).Nodup := by
      rw [List.map_cons, List.nodup_cons] at hnodup
      exact hnodup
    by_cases hp : g.id ∈ ids
    · rw [List.filter_cons_of_pos (by simpa using hp)]
      by_cases hgi : g.id = i
      · have hrest : ∀ x ∈ rest.filter (fun g => decide (g.id ∈ ids)), x.id ≠ i := by
          intro x hx hxi
          exact hnodup'.1 (List.mem_map.mpr ⟨x, List.mem_of_mem_filter hx, by rw [hxi, hgi]⟩)
        unfold mapGetLast
        rw [mapGetLast_eq_none _ _ hrest, List.find?_cons_of_pos _ (by simpa using hgi)]
        simp [hgi]
      · rw [mapGetLast_cons_ne _ _ _ hgi, ih hnodup'.2,
          List.find?_cons_of_neg _ (by simpa using hgi)]
    · have hgi : ¬ g.id = i := fun he => hp (he ▸ hi)
      rw [List.filter_cons_of_neg (by simpa using hp), ih hnodup'.2,
        List.find?_cons_of_neg _ (by simpa using hgi)]

/-- C6.  With duplicate-free accumulated rule ids, `selected_ids`
resolves to exactly the selected ids in their given order, each replaced
by the accumulated rule with that id and silently skipped when no rule
matches; concretely, a `saas` preset config with `selected_ids: [9, 1]`
resolves to exactly rule 9 then rule 1. -/
theorem applySelectedIds_spec (gs : List Guardrail) (ids : List Int)
    (hnodup : (gs.map (fun g => g.id)).Nodup) :
    applySelectedIds ids gs = ids.filterMap (fun i => gs.find? (fun g => g.id = i))
    ∧ loadGuardrailsForWorkspace "app"
        (.parsed (JVal.obj [("preset", JVal.str "saas"),
          ("selected_ids", JVal.arr [JVal.num 9, JVal.num 1])])) =
      { guardrails := [⟨9, "Multi-Tenancy Isolation", "Tenant data isolation", "critical", true⟩,
          ⟨1, "Testing Coverage", "Minimum test coverage thresholds", "critical", true⟩],
        preset := some "saas", diagnostic := none } := by
  refine ⟨?_, by decide⟩
  unfold applySelectedIds
  have haux : ∀ sub : List Int, (∀ j ∈ sub, j ∈ ids) →
      sub.filterMap (fun i => mapGetLast (gs.filter (fun g => decide (g.id ∈ ids))) i) =
        sub.filterMap (fun i => gs.find? (fun g => g.id = i)) := by
    intro sub
    induction sub with
    | nil => intro _; rfl
    | cons j tl ihs =>
      intro hsub
      rw [List.filterMap_cons, List.filterMap_cons,
        mapGetLast_filter_eq_find? gs ids j hnodup (hsub j (List.mem_cons_self j tl)),
        ihs (fun x hx => hsub x (List.mem_cons_of_mem j hx))]
  exact haux ids (fun _ h => h)

/-- Concrete discharge of the duplicate-free hypothesis on the baseline
rule-set, reordering `[3, 1]`. -/
theorem applySelectedIds_spec_witness :
    applySelectedIds [3, 1] CORE_GUARDRAILS =
      [3, 1].filterMap (fun i => CORE_GUARDRAILS.find? (fun g => g.id = i)) :=
  (applySelectedIds_spec CORE_GUARDRAILS [3, 1] (by decide)).1

/-- Unfolding equation of `lookupLast` on a non-empty association list. -/
theorem lookupLast_cons {α : Type} (kv : String × α) (rest : List (String × α)) (k : String) :
    lookupLast (kv :: rest) k =
      match lookupLast rest k with
      | some v => some v
      | none => if kv.1 = k then some kv.2 else none := rfl

/-- `lookupLast` over a root-keyed map misses keys of no root. -/
theorem lookupLast_map_not_mem {α : Type} (f : RootDesc → α) (l : List RootDesc) (k : String)
    (h : k ∉ l.map (fun r => r.path)) :
    lookupLast (l.map (fun r => (r.path, f r))) k = none := by
  induction l with
  | nil => rfl
  | cons r rest ih =>
    rw [List.map_cons] at h
    rw [List.mem_cons, not_or] at h
    have h3 : ¬ r.path = k := fun he => h.1 he.symm
    rw [List.map_cons, lookupLast_cons, ih h.2]
    simp [h3]

/-- With duplicate-free root paths, `lookupLast` over a root-keyed map
returns exactly the entry computed for that root. -/
theorem lookupLast_map_self {α : Type} (f : RootDesc → α) (l : List RootDesc) (w : RootDesc)
    (hmem : w ∈ l) (hnodup : (l.map (fun r => r.path)).Nodup) :
    lookupLast (l.map (fun r => (r.path, f r))) w.path = some (f w) := by
  induction l with
  | nil => cases hmem
  | cons r rest ih =>
    have hnodup' : r.path ∉ rest.map (fun r => r.path) ∧ (rest.map (fun r => r.path)).Nodup := by
      rw [List.map_cons, List.nodup_cons] at hnodup
      exact hnodup
    rw [List.map_cons, lookupLast_cons]
    rcases List.mem_cons.mp hmem with heq | hmemrest
    · subst heq
      rw [lookupLast_map_not_mem f rest w.path hnodup'.1]
      simp
    · rw [ih hmemrest hnodup'.2]

/-- `loadGuardrails` with no primary workspace configured resolves every
configured root from its own configuration document and keys both maps by
absolute root path. -/
theorem loadGuardrailsMaps_no_primary (roots : List RootDesc)
    (fileSystem : String → ConfigDoc) :
    loadGuardrailsMaps roots "" fileSystem =
      (roots.map (fun w =>
          (w.path, (loadGuardrailsForWorkspace w.name (fileSystem w.path)).guardrails)),
       roots.map (fun w =>
          (w.path, (loadGuardrailsForWorkspace w.name (fileSystem w.path)).preset))) := by
  simp [loadGuardrailsMaps, List.map_map, Function.comp]

/-- C2.  Two configured roots sharing a display name but having distinct
absolute paths: a refresh with no primary override stores each root's
resolved rule-set, preset and coverage under its own absolute path, each
entry computed solely from that root's own documents, so neither root
overwrites the other. -/
theorem multi_root_path_keying (roots : List RootDesc) (fileSystem : String → ConfigDoc)
    (specDocs : String → List (String × List (Int × String))) (w1 w2 : RootDesc)
    (h1 : w1 ∈ roots) (h2 : w2 ∈ roots) (hname : w1.name = w2.name)
    (hpath : w1.path ≠ w2.path)
    (hnodup : (roots.map (fun r => r.path)).Nodup) :
    lookupLast (loadGuardrailsMaps roots "" fileSystem).1 w1.path =
      some (loadGuardrailsForWorkspace w1.name (fileSystem w1.path)).guardrails
    ∧ lookupLast (loadGuardrailsMaps roots "" fileSystem).1 w2.path =
      some (loadGuardrailsForWorkspace w2.name (fileSystem w2.path)).guardrails
    ∧ lookupLast (loadGuardrailsMaps roots "" fileSystem).2 w1.path =
      some (loadGuardrailsForWorkspace w1.name (fileSystem w1.path)).preset
    ∧ lookupLast (loadGuardrailsMaps roots "" fileSystem).2 w2.path =
      some (loadGuardrailsForWorkspace w2.name (fileSystem w2.path)).preset
    ∧ lookupLast
        (analyzeCoverageMaps roots (loadGuardrailsMaps roots "" fileSystem).1 specDocs)
        w1.path =
      some (computeWorkspaceCoverage
        (loadGuardrailsForWorkspace w1.name (fileSystem w1.path)).guardrails
        (specDocs w1.path))
    ∧ lookupLast
        (analyzeCoverageMaps roots (loadGuardrailsMaps roots "" fileSystem).1 specDocs)
        w2.path =
      some (computeWorkspaceCoverage
        (loadGuardrailsForWorkspace w2.name (fileSystem w2.path)).guardrails
        (specDocs w2.path)) := by
  rw [loadGuardrailsMaps_no_primary]
  have hg1 := lookupLast_map_self
    (fun w => (loadGuardrailsForWorkspace w.name (fileSystem w.path)).guardrails)
    roots w1 h1 hnodup
  have hg2 := lookupLast_map_self
    (fun w => (loadGuardrailsForWorkspace w.name (fileSystem w.path)).guardrails)
    roots w2 h2 hnodup
  have hp1 := lookupLast_map_self
    (fun w => (loadGuardrailsForWorkspace w.name (fileSystem w.path)).preset)
    roots w1 h1 hnodup
  have hp2 := lookupLast_map_self
    (fun w => (loadGuardrailsForWorkspace w.name (fileSystem w.path)).preset)
    roots w2 h2 hnodup
  have hc1 := lookupLast_map_self
    (fun w => computeWorkspaceCoverage
      ((lookupLast (roots.map (fun r =>
        (r.path, (loadGuardrailsForWorkspace r.name (fileSystem r.path)).guardrails))) w.path).getD [])
      (specDocs w.path))
    roots w1 h1 hnodup
  have hc2 := lookupLast_map_self
    (fun w => computeWorkspaceCoverage
      ((lookupLast (roots.map (fun r =>
        (r.path, (loadGuardrailsForWorkspace r.name (fileSystem r.path)).guardrails))) w.path).getD [])
      (specDocs w.path))
    roots w2 h2 hnodup
  simp only [] at hg1 hg2 hp1 hp2 hc1 hc2
  rw [hg1, Option.getD_some] at hc1
  rw [hg2, Option.getD_some] at hc2
  exact ⟨hg1, hg2, hp1, hp2, hc1, hc2⟩

/-- Concrete discharge: two roots both displayed as `app`, both without a
configuration document, keep independent entries. -/
theorem multi_root_path_keying_witness :
    lookupLast (loadGuardrailsMaps [⟨"/x/app", "app"⟩, ⟨"/y/app", "app"⟩] ""
        (fun _ => ConfigDoc.missing)).1 "/x/app" =
      some (loadGuardrailsForWorkspace "app" ConfigDoc.missing).guardrails :=
  (multi_root_path_keying [⟨"/x/app", "app"⟩, ⟨"/y/app", "app"⟩]
    (fun _ => ConfigDoc.missing) (fun _ => []) ⟨"/x/app", "app"⟩ ⟨"/y/app", "app"⟩
    (by decide) (by decide) rfl (by decide) (by decide)).1

/-- C8.  Conflict detection short-circuits: it reports nothing for a
single root or a configured primary; with more than one root and no
primary, more than one distinct recorded preset yields the single
preset-divergence warning naming all distinct presets whatever the
rule-sets contain (so the identity check is not reached); otherwise the
identity walk yields nothing when it finds no conflict and, when it finds
some, one warning citing the first conflict line and the total count.
Concretely: roots presetting saas vs fintech warn on presets even with a
conflicting rule id, and same-preset roots defining id 1 as Alpha vs Beta
warn with that single identity conflict. -/
theorem checkForConflictingConfigs_spec :
    (∀ (ws : List RootDesc) (primary : String)
        (pm : List (String × Option String)) (gm : List (String × List Guardrail)),
      (ws.length ≤ 1 ∨ primary ≠ "") →
        checkForConflictingConfigs ws primary pm gm = none)
    ∧ (∀ (ws : List RootDesc) (pm : List (String × Option String))
          (gm : List (String × List Guardrail)),
        1 < ws.length →
        1 < (dedupKeepFirst (pm.filterMap (fun p => p.2))).length →
          checkForConflictingConfigs ws "" pm gm =
            some (presetConflictMessage (dedupKeepFirst (pm.filterMap (fun p => p.2)))))
    ∧ (∀ (ws : List RootDesc) (pm : List (String × Option String))
          (gm : List (String × List Guardrail)),
        1 < ws.length →
        (dedupKeepFirst (pm.filterMap (fun p => p.2))).length ≤ 1 →
        collectIdConflicts gm = [] →
          checkForConflictingConfigs ws "" pm gm = none)
    ∧ (∀ (ws : List RootDesc) (pm : List (String × Option String))
          (gm : List (String × List Guardrail)) (c : String) (rest : List String),
        1 < ws.length →
        (dedupKeepFirst (pm.filterMap (fun p => p.2))).length ≤ 1 →
        collectIdConflicts gm = c :: rest →
          checkForConflictingConfigs ws "" pm gm =
            some (idConflictMessage c (rest.length + 1)))
    ∧ (∀ gm : List (String × List Guardrail),
        checkForConflictingConfigs [⟨"/a/app", "app"⟩, ⟨"/b/app", "app"⟩] ""
          [("/a/app", some "saas"), ("/b/app", some "fintech")] gm =
          some (presetConflictMessage ["saas", "fintech"]))
    ∧ checkForConflictingConfigs [⟨"/a/app", "app"⟩, ⟨"/b/app", "app"⟩] ""
        [("/a/app", some "saas"), ("/b/app", some "saas")]
        [("/a/app", [⟨1, "Alpha", "", "critical", true⟩]),
         ("/b/app", [⟨1, "Beta", "", "critical", true⟩])] =
        some (idConflictMessage
          "ID 1: \x27Alpha\x27 (app) vs \x27Beta\x27 (app)" 1) := by
  refine ⟨?_, ?_, ?_, ?_, ?_, by decide⟩
  · intro ws primary pm gm h
    simp only [checkForConflictingConfigs]
    rw [if_pos h]
  · intro ws pm gm hws hlen
    simp only [checkForConflictingConfigs]
    rw [if_neg (by simp; omega), if_pos hlen]
  · intro ws pm gm hws hlen hconf
    simp only [checkForConflictingConfigs]
    rw [if_neg (by simp; omega), if_neg (by omega), hconf]
  · intro ws pm gm c rest hws hlen hconf
    simp only [checkForConflictingConfigs]
    rw [if_neg (by simp; omega), if_neg (by omega), hconf]
  · intro gm
    simp only [checkForConflictingConfigs]
    rw [if_neg (by decide), if_pos (by decide)]
    decide

/-- Concrete discharge of the guard: a single root reports nothing. -/
theorem checkForConflictingConfigs_spec_witness :
    checkForConflictingConfigs [⟨"/a/app", "app"⟩] "" [("/a/app", some "saas")] [] = none :=
  checkForConflictingConfigs_spec.1 [⟨"/a/app", "app"⟩] "" [("/a/app", some "saas")] []
    (Or.inl (by decide))

end Ldf
